import Mathlib

/-!
# Databriz Meetings API: the Azure controller

A shallow embedding of `controllers/azure.go`. Each handler reads its
parameters from the request context, talks to Azure DevOps through the
package-level `client` / `interactor`, and writes one response.

* The request context (`gin.Context`) is a record of path parameters, query
  parameters and the responses written so far.
* The two package-level variables `client` and `interactor` are passed to the
  handlers explicitly.  Their methods live outside the controller, so they
  are arbitrary functions answering `Except GoError _`; every invocation is
  appended to a log of upstream calls that is threaded through the handler.
* Result types declared in other packages are type parameters.
-/

namespace Databriz

/-! ## Go and net/http basics -/

/-- A Go `error` value, identified by its message. -/
structure GoError where
  message : String
deriving DecidableEq, Repr

/-- Constant `http.StatusOK`. -/
def StatusOK : Nat := 200

/-- Constant `http.StatusBadRequest`. -/
def StatusBadRequest : Nat := 400

/-- Constant `http.StatusInternalServerError`. -/
def StatusInternalServerError : Nat := 500

/-! ## The request context -/

/-- What a handler can put in a response body: an object handed to
`ctx.JSON`, or one of the two error payloads produced by `httputil`. -/
inductive Body (α : Type) where
  | HTTPError (message : String)
  | upstreamError
  | value (obj : α)
deriving DecidableEq, Repr

/-- One response written to the caller. -/
structure Response (α : Type) where
  status : Nat
  body : Body α
deriving DecidableEq, Repr

/-- The part of `gin.Context` the controller uses: path parameters, query
parameters, and the responses written so far (oldest first). -/
structure Context (α : Type) where
  Params : List (String × String)
  query : List (String × String)
  written : List (Response α)
deriving DecidableEq, Repr

/-- Call `ctx.Param(key)`: the path parameter, or the empty string. -/
def Context.Param {α : Type} (ctx : Context α) (key : String) : String :=
  (ctx.Params.lookup key).getD ""

/-- Call `ctx.Query(key)`: the first query value for the key, or the empty string. -/
def Context.Query {α : Type} (ctx : Context α) (key : String) : String :=
  (ctx.query.lookup key).getD ""

/-- Call `ctx.JSON(code, obj)`. -/
def Context.JSON {α : Type} (ctx : Context α) (code : Nat) (obj : α) : Context α :=
  { ctx with written := ctx.written ++ [⟨code, Body.value obj⟩] }

/-- Call `ctx.Writer.Status()`: the status of the last response written. -/
def Context.Status {α : Type} (ctx : Context α) : Option Nat :=
  ctx.written.getLast?.map Response.status

/-- Modelled from the spec: `httputil.NewError` is not part of the controller
file. A client error is surfaced with the given status and a message naming
the offending parameters. -/
def httputil.NewError {α : Type} (ctx : Context α) (status : Nat) (message : String) :
    Context α :=
  { ctx with written := ctx.written ++ [⟨status, Body.HTTPError message⟩] }

/-- Modelled from the spec: `httputil.NewInternalAzureError` is not part of
the controller file. An upstream failure is answered with status 500 and a
generic upstream-error payload (the handlers document it as
`@Failure 500 ... "When failed to receive data from Azure"`). -/
def httputil.NewInternalAzureError {α : Type} (ctx : Context α) : Context α :=
  { ctx with written := ctx.written ++ [⟨StatusInternalServerError, Body.upstreamError⟩] }

/-! ## Upstream: the Azure client and the work-item interactor -/

/-- Type `services.ProjectsParams`. -/
structure ProjectsParams where
  ApiVersion : String
deriving DecidableEq, Repr

/-- Type `services.TeamsParams`. -/
structure TeamsParams where
  ApiVersion : String
deriving DecidableEq, Repr

/-- Modelled from the spec: the element type of the WIQL result is declared
outside the controller; the spec gives it as a bare handle with an integer
`ID`, the only field the controller reads. -/
structure WorkItemReference where
  ID : Int
deriving DecidableEq, Repr

/-- Modelled from the spec: the WIQL result type is declared outside the
controller; it carries the ordered sequence `WorkItems`. -/
structure WiqlQueryResult where
  WorkItems : List WorkItemReference
deriving DecidableEq, Repr

/-- One invocation of an upstream method, with its arguments. -/
inductive Call where
  | Projects (params : ProjectsParams)
  | ProjectTeams (projectId : String) (params : ProjectsParams)
  | TeamMembers (projectId teamId : String) (params : TeamsParams)
  | TeamIterations (projectId teamId : String) (params : TeamsParams)
  | GetWorkItemsByWiql (projectId teamId userEmail iteration : String)
  | GetWorkItemsDescription (projectId : String) (ids : List Int)
deriving DecidableEq, Repr

/-- Type `services.ProjectsService`: how the upstream answers each method. -/
structure ProjectsService (P T : Type) where
  replyProjects : ProjectsParams → Except GoError P
  replyProjectTeams : String → ProjectsParams → Except GoError T

/-- Type `services.TeamsService`: how the upstream answers each method. -/
structure TeamsService (M I : Type) where
  replyTeamMembers : String → String → TeamsParams → Except GoError M
  replyTeamIterations : String → String → TeamsParams → Except GoError I

/-- Type `services.AzureClient`, restricted to the services the controller calls. -/
structure AzureClient (P T M I : Type) where
  Projects : ProjectsService P T
  Teams : TeamsService M I

/-- Type `utils.AzureInteractor`: how the two stages of the work-item workflow
answer. -/
structure AzureInteractor (α : Type) where
  replyWiql : String → String → String → String → Except GoError WiqlQueryResult
  replyDescription : String → List Int → Except GoError α

/-- Call `client.Projects.Projects(params)`: records the call and answers. -/
def ProjectsService.Projects {P T : Type} (s : ProjectsService P T)
    (params : ProjectsParams) (log : List Call) : Except GoError P × List Call :=
  (s.replyProjects params, log ++ [Call.Projects params])

/-- Call `client.Projects.ProjectTeams(projectId, params)`. -/
def ProjectsService.ProjectTeams {P T : Type} (s : ProjectsService P T)
    (projectId : String) (params : ProjectsParams) (log : List Call) :
    Except GoError T × List Call :=
  (s.replyProjectTeams projectId params, log ++ [Call.ProjectTeams projectId params])

/-- Call `client.Teams.TeamMembers(projectId, teamId, params)`. -/
def TeamsService.TeamMembers {M I : Type} (s : TeamsService M I)
    (projectId teamId : String) (params : TeamsParams) (log : List Call) :
    Except GoError M × List Call :=
  (s.replyTeamMembers projectId teamId params,
    log ++ [Call.TeamMembers projectId teamId params])

/-- Call `client.Teams.TeamIterations(projectId, teamId, params)`. -/
def TeamsService.TeamIterations {M I : Type} (s : TeamsService M I)
    (projectId teamId : String) (params : TeamsParams) (log : List Call) :
    Except GoError I × List Call :=
  (s.replyTeamIterations projectId teamId params,
    log ++ [Call.TeamIterations projectId teamId params])

/-- Call `interactor.GetWorkItemsByWiql(projectId, teamId, userEmail, iteration)`. -/
def AzureInteractor.GetWorkItemsByWiql {α : Type} (i : AzureInteractor α)
    (projectId teamId userEmail iteration : String) (log : List Call) :
    Except GoError WiqlQueryResult × List Call :=
  (i.replyWiql projectId teamId userEmail iteration,
    log ++ [Call.GetWorkItemsByWiql projectId teamId userEmail iteration])

/-- Call `interactor.GetWorkItemsDescription(projectId, ids)`. -/
def AzureInteractor.GetWorkItemsDescription {α : Type} (i : AzureInteractor α)
    (projectId : String) (ids : List Int) (log : List Call) :
    Except GoError α × List Call :=
  (i.replyDescription projectId ids, log ++ [Call.GetWorkItemsDescription projectId ids])

/-- The `models.FromAzure...` converters, declared outside the controller. -/
structure Models (P T M I α : Type) where
  FromAzureProjectsList : P → α
  FromAzureTeamsList : T → α
  FromAzureMembersList : M → α
  FromAzureIterations : I → α

/-! ## Routing -/

/-- The handlers of the controller. -/
inductive Handler where
  | getProjectsList
  | getProjectTeams
  | getTeamMembers
  | getTeamIterations
  | getMemberWorkItems
deriving DecidableEq, Repr

/-- One entry of the route table. -/
structure Route where
  httpMethod : String
  relativePath : String
  handler : Handler
deriving DecidableEq, Repr

/-- The part of `gin.RouterGroup` the controller uses: the route table. -/
structure RouterGroup where
  routes : List Route
deriving DecidableEq, Repr

/-- Call `router.GET(relativePath, handler)`. -/
def RouterGroup.GET (router : RouterGroup) (relativePath : String) (h : Handler) :
    RouterGroup :=
  { routes := router.routes ++ [⟨"GET", relativePath, h⟩] }

/-- Method `AzureController.RegisterRoutes`. -/
def RegisterRoutes (router : RouterGroup) : RouterGroup :=
  let router := router.GET "projects/list" Handler.getProjectsList
  let router := router.GET "teams/list" Handler.getProjectTeams
  let router := router.GET "teams/members/list" Handler.getTeamMembers
  let router := router.GET "teams/iterations/list" Handler.getTeamIterations
  router.GET "members/:memberId/workItems/list" Handler.getMemberWorkItems

/-! ## Handlers -/

/-- Handler `AzureController.getProjectsList`. -/
def getProjectsList {P T M I α : Type} (client : AzureClient P T M I)
    (models : Models P T M I α) (ctx : Context α) (log : List Call) :
    Context α × List Call :=
  match client.Projects.Projects { ApiVersion := "5.1" } log with
  | (Except.error _, log) => (httputil.NewInternalAzureError ctx, log)
  | (Except.ok projects, log) =>
    (ctx.JSON StatusOK (models.FromAzureProjectsList projects), log)

/-- Handler `AzureController.getProjectTeams`. -/
def getProjectTeams {P T M I α : Type} (client : AzureClient P T M I)
    (models : Models P T M I α) (ctx : Context α) (log : List Call) :
    Context α × List Call :=
  let projectId := ctx.Query "projectId"
  if projectId = "" then
    (httputil.NewError ctx StatusBadRequest "projectId must be provided", log)
  else
    match client.Projects.ProjectTeams projectId { ApiVersion := "5.0" } log with
    | (Except.error _, log) => (httputil.NewInternalAzureError ctx, log)
    | (Except.ok projectTeams, log) =>
      (ctx.JSON StatusOK (models.FromAzureTeamsList projectTeams), log)

/-- Handler `AzureController.getTeamMembers`. -/
def getTeamMembers {P T M I α : Type} (client : AzureClient P T M I)
    (models : Models P T M I α) (ctx : Context α) (log : List Call) :
    Context α × List Call :=
  let projectId := ctx.Query "projectId"
  let teamId := ctx.Query "teamId"
  if projectId = "" ∨ teamId = "" then
    (httputil.NewError ctx StatusBadRequest "projectId and teamId must be provided", log)
  else
    match client.Teams.TeamMembers projectId teamId { ApiVersion := "5.1" } log with
    | (Except.error _, log) => (httputil.NewInternalAzureError ctx, log)
    | (Except.ok teamMembers, log) =>
      (ctx.JSON StatusOK (models.FromAzureMembersList teamMembers), log)

/-- Handler `AzureController.getTeamIterations`. -/
def getTeamIterations {P T M I α : Type} (client : AzureClient P T M I)
    (models : Models P T M I α) (ctx : Context α) (log : List Call) :
    Context α × List Call :=
  let projectId := ctx.Query "projectId"
  let teamId := ctx.Query "teamId"
  if projectId = "" ∨ teamId = "" then
    (httputil.NewError ctx StatusBadRequest "projectId and teamId must be provided", log)
  else
    match client.Teams.TeamIterations projectId teamId { ApiVersion := "5.1" } log with
    | (Except.error _, log) => (httputil.NewInternalAzureError ctx, log)
    | (Except.ok teamIterations, log) =>
      (ctx.JSON StatusOK (models.FromAzureIterations teamIterations), log)

/-- The loop `for index, element := range ... { newList[index] = element.ID }`,
started at position `index` on the remaining elements. -/
def rangeAssign : List WorkItemReference → Nat → List Int → List Int
  | [], _, newList => newList
  | element :: rest, index, newList =>
    rangeAssign rest (index + 1) (newList.set index element.ID)

/-- The ID list built for the detail request:
`make([]int, len(WorkItems))` filled by the range loop. -/
def detailIDs (workItemsWiql : WiqlQueryResult) : List Int :=
  let newList := List.replicate workItemsWiql.WorkItems.length (0 : Int)
  rangeAssign workItemsWiql.WorkItems 0 newList

/-- Handler `AzureController.getMemberWorkItems`. -/
def getMemberWorkItems {α : Type} (interactor : AzureInteractor α)
    (ctx : Context α) (log : List Call) : Context α × List Call :=
  let userEmail := ctx.Param "memberId"
  let projectId := ctx.Query "projectId"
  let teamId := ctx.Query "teamId"
  let iteration := ctx.Query "iteration"
  if projectId = "" ∨ teamId = "" ∨ userEmail = "" ∨ iteration = "" then
    (httputil.NewError ctx StatusBadRequest
      "projectId, teamId, userId, iteration must be provided", log)
  else
    match interactor.GetWorkItemsByWiql projectId teamId userEmail iteration log with
    | (Except.error _, log) => (httputil.NewInternalAzureError ctx, log)
    | (Except.ok workItemsWiql, log) =>
      let newList := detailIDs workItemsWiql
      match interactor.GetWorkItemsDescription projectId newList log with
      | (Except.error _, log) => (httputil.NewInternalAzureError ctx, log)
      | (Except.ok workItems, log) => (ctx.JSON StatusOK workItems, log)

/-! ## Concrete requests and upstreams used as examples -/

/-- A request with all four parameters present. -/
def sampleCtx : Context String :=
  { Params := [("memberId", "dev@example.com")]
    query := [("projectId", "proj"), ("teamId", "team"), ("iteration", "Sprint 1")]
    written := [] }

/-- An upstream whose WIQL stage returns the IDs 101 and 205 and whose detail
stage returns a record for them. -/
def sampleInteractor : AzureInteractor String :=
  { replyWiql := fun _ _ _ _ => Except.ok ⟨[⟨101⟩, ⟨205⟩]⟩
    replyDescription := fun _ _ => Except.ok "two records" }

/-- An upstream whose WIQL stage fails. -/
def wiqlDownInteractor : AzureInteractor String :=
  { replyWiql := fun _ _ _ _ => Except.error ⟨"503 Service Unavailable"⟩
    replyDescription := fun _ _ => Except.ok "never asked" }

/-- An upstream whose WIQL stage finds nothing and whose detail stage fails. -/
def emptyThenDownInteractor : AzureInteractor String :=
  { replyWiql := fun _ _ _ _ => Except.ok ⟨[]⟩
    replyDescription := fun _ _ => Except.error ⟨"400 Bad Request"⟩ }

/-- An upstream whose WIQL stage succeeds and whose detail stage fails. -/
def detailDownInteractor : AzureInteractor String :=
  { replyWiql := fun _ _ _ _ => Except.ok ⟨[⟨101⟩, ⟨205⟩]⟩
    replyDescription := fun _ _ => Except.error ⟨"502 Bad Gateway"⟩ }

/-- Number of detail-fetch invocations in a log of upstream calls. -/
def detailFetchCount : List Call → Nat
  | [] => 0
  | Call.GetWorkItemsDescription _ _ :: rest => detailFetchCount rest + 1
  | _ :: rest => detailFetchCount rest

/-- Number of WIQL invocations in a log of upstream calls. -/
def wiqlCount : List Call → Nat
  | [] => 0
  | Call.GetWorkItemsByWiql _ _ _ _ :: rest => wiqlCount rest + 1
  | _ :: rest => wiqlCount rest

/-- A request whose `iteration` query parameter is absent. -/
def noIterationCtx : Context String :=
  { Params := [("memberId", "dev@example.com")]
    query := [("projectId", "proj"), ("teamId", "team")]
    written := [] }

/-- A request whose iteration name contains quote characters. -/
def quotedCtx : Context String :=
  { Params := [("memberId", "dev@example.com")]
    query := [("projectId", "proj"), ("teamId", "team"),
      ("iteration", "Sprint \" OR \"1\" = \"1")]
    written := [] }

/-- Another upstream whose WIQL stage succeeds (with other IDs) and whose
detail stage fails (with another error). -/
def otherDetailDownInteractor : AzureInteractor String :=
  { replyWiql := fun _ _ _ _ => Except.ok ⟨[⟨7⟩]⟩
    replyDescription := fun _ _ => Except.error ⟨"401 Unauthorized"⟩ }

/-- A request with `projectId` but no `teamId`. -/
def noTeamCtx : Context String :=
  { Params := []
    query := [("projectId", "proj")]
    written := [] }

/-- A request without any parameter. -/
def bareCtx : Context String :=
  { Params := []
    query := []
    written := [] }

/-- Converters that tag the upstream payload with the kind of list. -/
def sampleModels : Models String String String String String :=
  { FromAzureProjectsList := fun projects => "projects: " ++ projects
    FromAzureTeamsList := fun teams => "teams: " ++ teams
    FromAzureMembersList := fun members => "members: " ++ members
    FromAzureIterations := fun iterations => "iterations: " ++ iterations }

/-- A client whose every call succeeds. -/
def sampleClient : AzureClient String String String String :=
  { Projects :=
      { replyProjects := fun _ => Except.ok "Alpha"
        replyProjectTeams := fun _ _ => Except.ok "Core" }
    Teams :=
      { replyTeamMembers := fun _ _ _ => Except.ok "dev@example.com"
        replyTeamIterations := fun _ _ _ => Except.ok "Sprint 1" } }

/-- A client whose every call fails with the given error. -/
def downClient (e : GoError) : AzureClient String String String String :=
  { Projects :=
      { replyProjects := fun _ => Except.error e
        replyProjectTeams := fun _ _ => Except.error e }
    Teams :=
      { replyTeamMembers := fun _ _ _ => Except.error e
        replyTeamIterations := fun _ _ _ => Except.error e } }

/-! ## Auxiliary lemmas -/

theorem rangeAssign_fills (ws : List WorkItemReference) :
    ∀ (done rest : List Int), rest.length = ws.length →
      rangeAssign ws done.length (done ++ rest) = done ++ ws.map WorkItemReference.ID := by
  induction ws with
  | nil =>
    intro done rest h
    have hrest : rest = [] := List.length_eq_zero.mp h
    simp [rangeAssign, hrest]
  | cons element tail ih =>
    intro done rest h
    cases rest with
    | nil => simp at h
    | cons r rs =>
      have hlen : rs.length = tail.length := by simpa using h
      have hset : (done ++ r :: rs).set done.length element.ID
          = (done ++ [element.ID]) ++ rs := by
        simp [List.set_append]
      have hstep := ih (done ++ [element.ID]) rs hlen
      simp only [List.length_append, List.length_singleton] at hstep
      simp only [rangeAssign, hset, hstep]
      simp

theorem detailIDs_eq_map (w : WiqlQueryResult) :
    detailIDs w = w.WorkItems.map WorkItemReference.ID := by
  have h := rangeAssign_fills w.WorkItems [] (List.replicate w.WorkItems.length 0) (by simp)
  simpa [detailIDs] using h

theorem status_NewError {α : Type} (ctx : Context α) (status : Nat) (message : String) :
    (httputil.NewError ctx status message).Status = some status := by
  simp [httputil.NewError, Context.Status]

theorem status_NewInternalAzureError {α : Type} (ctx : Context α) :
    (httputil.NewInternalAzureError ctx).Status = some 500 := by
  simp [httputil.NewInternalAzureError, Context.Status, StatusInternalServerError]

theorem status_JSON {α : Type} (ctx : Context α) (code : Nat) (obj : α) :
    (ctx.JSON code obj).Status = some code := by
  simp [Context.JSON, Context.Status]

theorem detailFetchCount_append (xs ys : List Call) :
    detailFetchCount (xs ++ ys) = detailFetchCount xs + detailFetchCount ys := by
  induction xs with
  | nil => simp [detailFetchCount]
  | cons c cs ih =>
    cases c <;> simp [detailFetchCount, ih]
    omega

theorem wiqlCount_append (xs ys : List Call) :
    wiqlCount (xs ++ ys) = wiqlCount xs + wiqlCount ys := by
  induction xs with
  | nil => simp [wiqlCount]
  | cons c cs ih =>
    cases c <;> simp [wiqlCount, ih]
    omega

theorem getMemberWorkItems_missing {α : Type} (interactor : AzureInteractor α)
    (ctx : Context α) (log : List Call)
    (h : ctx.Query "projectId" = "" ∨ ctx.Query "teamId" = "" ∨
      ctx.Param "memberId" = "" ∨ ctx.Query "iteration" = "") :
    getMemberWorkItems interactor ctx log =
      (httputil.NewError ctx StatusBadRequest
        "projectId, teamId, userId, iteration must be provided", log) := by
  simp only [getMemberWorkItems, if_pos h]

theorem getMemberWorkItems_wiql_error {α : Type} (interactor : AzureInteractor α)
    (ctx : Context α) (log : List Call) (e : GoError)
    (h : ¬ (ctx.Query "projectId" = "" ∨ ctx.Query "teamId" = "" ∨
      ctx.Param "memberId" = "" ∨ ctx.Query "iteration" = ""))
    (hW : interactor.replyWiql (ctx.Query "projectId") (ctx.Query "teamId")
      (ctx.Param "memberId") (ctx.Query "iteration") = Except.error e) :
    getMemberWorkItems interactor ctx log =
      (httputil.NewInternalAzureError ctx,
        log ++ [Call.GetWorkItemsByWiql (ctx.Query "projectId") (ctx.Query "teamId")
          (ctx.Param "memberId") (ctx.Query "iteration")]) := by
  simp only [getMemberWorkItems, if_neg h, AzureInteractor.GetWorkItemsByWiql, hW]

theorem getMemberWorkItems_wiql_ok {α : Type} (interactor : AzureInteractor α)
    (ctx : Context α) (log : List Call) (W : WiqlQueryResult)
    (h : ¬ (ctx.Query "projectId" = "" ∨ ctx.Query "teamId" = "" ∨
      ctx.Param "memberId" = "" ∨ ctx.Query "iteration" = ""))
    (hW : interactor.replyWiql (ctx.Query "projectId") (ctx.Query "teamId")
      (ctx.Param "memberId") (ctx.Query "iteration") = Except.ok W) :
    getMemberWorkItems interactor ctx log =
      ((match interactor.replyDescription (ctx.Query "projectId") (detailIDs W) with
        | Except.error _ => httputil.NewInternalAzureError ctx
        | Except.ok workItems => ctx.JSON StatusOK workItems),
        log ++ [Call.GetWorkItemsByWiql (ctx.Query "projectId") (ctx.Query "teamId")
            (ctx.Param "memberId") (ctx.Query "iteration"),
          Call.GetWorkItemsDescription (ctx.Query "projectId") (detailIDs W)]) := by
  simp only [getMemberWorkItems, if_neg h, AzureInteractor.GetWorkItemsByWiql, hW,
    AzureInteractor.GetWorkItemsDescription]
  cases interactor.replyDescription (ctx.Query "projectId") (detailIDs W) <;> simp

theorem present_of_each {α : Type} (ctx : Context α)
    (hp : ctx.Query "projectId" ≠ "") (ht : ctx.Query "teamId" ≠ "")
    (hm : ctx.Param "memberId" ≠ "") (hi : ctx.Query "iteration" ≠ "") :
    ¬ (ctx.Query "projectId" = "" ∨ ctx.Query "teamId" = "" ∨
      ctx.Param "memberId" = "" ∨ ctx.Query "iteration" = "") := by
  rintro (h | h | h | h)
  · exact hp h
  · exact ht h
  · exact hm h
  · exact hi h

/-! ## The member-work-items workflow -/

/-- C1: with four non-empty parameters and a successful WIQL result `W`, the
detail-fetch stage is invoked once, right after the WIQL stage, and the ID
list it receives is the list of IDs of `W.WorkItems`: same length, same
order, element `i` equal to `W.WorkItems[i].ID`. -/
theorem getMemberWorkItems_requests_wiql_ids {α : Type} (interactor : AzureInteractor α)
    (ctx : Context α) (log : List Call) (W : WiqlQueryResult)
    (hp : ctx.Query "projectId" ≠ "") (ht : ctx.Query "teamId" ≠ "")
    (hm : ctx.Param "memberId" ≠ "") (hi : ctx.Query "iteration" ≠ "")
    (hW : interactor.replyWiql (ctx.Query "projectId") (ctx.Query "teamId")
      (ctx.Param "memberId") (ctx.Query "iteration") = Except.ok W) :
    (getMemberWorkItems interactor ctx log).2 =
        log ++ [Call.GetWorkItemsByWiql (ctx.Query "projectId") (ctx.Query "teamId")
            (ctx.Param "memberId") (ctx.Query "iteration"),
          Call.GetWorkItemsDescription (ctx.Query "projectId") (detailIDs W)] ∧
      detailFetchCount (getMemberWorkItems interactor ctx log).2 = detailFetchCount log + 1 ∧
      detailIDs W = W.WorkItems.map WorkItemReference.ID ∧
      (detailIDs W).length = W.WorkItems.length ∧
      ∀ (i : Nat) (h : i < W.WorkItems.length),
        (detailIDs W)[i]? = some (W.WorkItems[i]).ID := by
  have hrun := getMemberWorkItems_wiql_ok interactor ctx log W
    (present_of_each ctx hp ht hm hi) hW
  have hids := detailIDs_eq_map W
  refine ⟨by rw [hrun], ?_, hids, by simp [hids], ?_⟩
  · rw [hrun]
    simp [detailFetchCount_append, detailFetchCount]
  · intro i h
    simp [hids, h]

theorem getMemberWorkItems_requests_wiql_ids_witness :
    (getMemberWorkItems sampleInteractor sampleCtx []).2 =
        [] ++ [Call.GetWorkItemsByWiql (sampleCtx.Query "projectId")
            (sampleCtx.Query "teamId") (sampleCtx.Param "memberId")
            (sampleCtx.Query "iteration"),
          Call.GetWorkItemsDescription (sampleCtx.Query "projectId")
            (detailIDs ⟨[⟨101⟩, ⟨205⟩]⟩)] ∧
      detailIDs ⟨[⟨101⟩, ⟨205⟩]⟩ = [101, 205] :=
  ⟨(getMemberWorkItems_requests_wiql_ids sampleInteractor sampleCtx [] ⟨[⟨101⟩, ⟨205⟩]⟩
      (by decide) (by decide) (by decide) (by decide) rfl).1,
    by decide⟩

/-- C2 fails on the code: when the WIQL stage finds nothing, the handler
still invokes the detail-fetch stage (with the empty ID list), and if that
call fails the caller gets the 500 upstream-error response. -/
theorem getMemberWorkItems_empty_wiql_still_fetches :
    (getMemberWorkItems emptyThenDownInteractor sampleCtx []).2 =
        [Call.GetWorkItemsByWiql "proj" "team" "dev@example.com" "Sprint 1",
          Call.GetWorkItemsDescription "proj" []] ∧
      detailFetchCount (getMemberWorkItems emptyThenDownInteractor sampleCtx []).2 = 1 ∧
      (getMemberWorkItems emptyThenDownInteractor sampleCtx []).1.written =
        [⟨500, Body.upstreamError⟩] := by
  decide

/-- C2 (amended): with four non-empty parameters and a WIQL result whose
`WorkItems` list is empty, the detail-fetch stage is invoked exactly once,
with the empty ID list, and the response is what that stage yields: 200 with
the returned value when it succeeds, the upstream-error response when it
fails. -/
theorem getMemberWorkItems_empty_wiql {α : Type} (interactor : AzureInteractor α)
    (ctx : Context α) (log : List Call) (W : WiqlQueryResult)
    (hp : ctx.Query "projectId" ≠ "") (ht : ctx.Query "teamId" ≠ "")
    (hm : ctx.Param "memberId" ≠ "") (hi : ctx.Query "iteration" ≠ "")
    (hW : interactor.replyWiql (ctx.Query "projectId") (ctx.Query "teamId")
      (ctx.Param "memberId") (ctx.Query "iteration") = Except.ok W)
    (hempty : W.WorkItems = []) :
    (getMemberWorkItems interactor ctx log).2 =
        log ++ [Call.GetWorkItemsByWiql (ctx.Query "projectId") (ctx.Query "teamId")
            (ctx.Param "memberId") (ctx.Query "iteration"),
          Call.GetWorkItemsDescription (ctx.Query "projectId") []] ∧
      detailFetchCount (getMemberWorkItems interactor ctx log).2 = detailFetchCount log + 1 ∧
      (∀ workItems, interactor.replyDescription (ctx.Query "projectId") [] =
          Except.ok workItems →
        (getMemberWorkItems interactor ctx log).1 = ctx.JSON StatusOK workItems) ∧
      (∀ e, interactor.replyDescription (ctx.Query "projectId") [] = Except.error e →
        (getMemberWorkItems interactor ctx log).1 = httputil.NewInternalAzureError ctx) := by
  have hrun := getMemberWorkItems_wiql_ok interactor ctx log W
    (present_of_each ctx hp ht hm hi) hW
  have hids : detailIDs W = [] := by simp [detailIDs_eq_map, hempty]
  rw [hids] at hrun
  refine ⟨by rw [hrun], ?_, ?_, ?_⟩
  · rw [hrun]
    simp [detailFetchCount_append, detailFetchCount]
  · intro workItems hd
    rw [hrun, hd]
  · intro e hd
    rw [hrun, hd]

theorem getMemberWorkItems_empty_wiql_witness :
    detailFetchCount (getMemberWorkItems emptyThenDownInteractor sampleCtx []).2 =
      detailFetchCount [] + 1 :=
  (getMemberWorkItems_empty_wiql emptyThenDownInteractor sampleCtx [] ⟨[]⟩
    (by decide) (by decide) (by decide) (by decide) rfl rfl).2.1

/-- C3: with four non-empty parameters, if the WIQL stage returns an error the
handler answers with the upstream-error response, whose status is 500, and
the WIQL call is the only upstream call: the detail-fetch stage is not
invoked. -/
theorem getMemberWorkItems_wiql_failure {α : Type} (interactor : AzureInteractor α)
    (ctx : Context α) (log : List Call) (e : GoError)
    (hp : ctx.Query "projectId" ≠ "") (ht : ctx.Query "teamId" ≠ "")
    (hm : ctx.Param "memberId" ≠ "") (hi : ctx.Query "iteration" ≠ "")
    (hW : interactor.replyWiql (ctx.Query "projectId") (ctx.Query "teamId")
      (ctx.Param "memberId") (ctx.Query "iteration") = Except.error e) :
    (getMemberWorkItems interactor ctx log).1 = httputil.NewInternalAzureError ctx ∧
      (getMemberWorkItems interactor ctx log).1.Status = some 500 ∧
      (getMemberWorkItems interactor ctx log).2 =
        log ++ [Call.GetWorkItemsByWiql (ctx.Query "projectId") (ctx.Query "teamId")
          (ctx.Param "memberId") (ctx.Query "iteration")] ∧
      detailFetchCount (getMemberWorkItems interactor ctx log).2 = detailFetchCount log := by
  have hrun := getMemberWorkItems_wiql_error interactor ctx log e
    (present_of_each ctx hp ht hm hi) hW
  refine ⟨by rw [hrun], ?_, by rw [hrun], ?_⟩
  · rw [hrun]
    exact status_NewInternalAzureError ctx
  · rw [hrun]
    simp [detailFetchCount_append, detailFetchCount]

theorem getMemberWorkItems_wiql_failure_witness :
    (getMemberWorkItems wiqlDownInteractor sampleCtx []).1.Status = some 500 ∧
      detailFetchCount (getMemberWorkItems wiqlDownInteractor sampleCtx []).2 = 0 :=
  have h := getMemberWorkItems_wiql_failure wiqlDownInteractor sampleCtx []
    ⟨"503 Service Unavailable"⟩ (by decide) (by decide) (by decide) (by decide) rfl
  ⟨h.2.1, h.2.2.2⟩

/-- C4: the handler answers 400 exactly when one of projectId, teamId,
memberId or iteration is the empty string; in that case the response is the
client error and no upstream call (WIQL or detail-fetch) is made. -/
theorem getMemberWorkItems_bad_request_iff {α : Type} (interactor : AzureInteractor α)
    (ctx : Context α) (log : List Call) :
    ((getMemberWorkItems interactor ctx log).1.Status = some 400 ↔
        (ctx.Query "projectId" = "" ∨ ctx.Query "teamId" = "" ∨
          ctx.Param "memberId" = "" ∨ ctx.Query "iteration" = "")) ∧
      ((ctx.Query "projectId" = "" ∨ ctx.Query "teamId" = "" ∨
          ctx.Param "memberId" = "" ∨ ctx.Query "iteration" = "") →
        (getMemberWorkItems interactor ctx log).1 =
            httputil.NewError ctx StatusBadRequest
              "projectId, teamId, userId, iteration must be provided" ∧
          (getMemberWorkItems interactor ctx log).2 = log) := by
  by_cases h : ctx.Query "projectId" = "" ∨ ctx.Query "teamId" = "" ∨
      ctx.Param "memberId" = "" ∨ ctx.Query "iteration" = ""
  · have hrun := getMemberWorkItems_missing interactor ctx log h
    refine ⟨⟨fun _ => h, fun _ => ?_⟩, fun _ => ⟨by rw [hrun], by rw [hrun]⟩⟩
    rw [hrun]
    exact status_NewError ctx StatusBadRequest _
  · refine ⟨⟨fun hs => ?_, fun hc => absurd hc h⟩, fun hc => absurd hc h⟩
    exfalso
    cases hW : interactor.replyWiql (ctx.Query "projectId") (ctx.Query "teamId")
        (ctx.Param "memberId") (ctx.Query "iteration") with
    | error e =>
      rw [getMemberWorkItems_wiql_error interactor ctx log e h hW] at hs
      rw [status_NewInternalAzureError] at hs
      exact absurd hs (by decide)
    | ok W =>
      rw [getMemberWorkItems_wiql_ok interactor ctx log W h hW] at hs
      cases hD : interactor.replyDescription (ctx.Query "projectId") (detailIDs W) with
      | error e =>
        rw [hD] at hs
        simp only [status_NewInternalAzureError] at hs
        exact absurd hs (by decide)
      | ok v =>
        rw [hD] at hs
        simp only [status_JSON, StatusOK] at hs
        exact absurd hs (by decide)

theorem getMemberWorkItems_bad_request_iff_witness :
    (getMemberWorkItems sampleInteractor noIterationCtx []).1.Status = some 400 ∧
      (getMemberWorkItems sampleInteractor noIterationCtx []).2 = [] ∧
      (getMemberWorkItems sampleInteractor sampleCtx []).1.Status ≠ some 400 :=
  have hbad := getMemberWorkItems_bad_request_iff sampleInteractor noIterationCtx []
  have hgood := getMemberWorkItems_bad_request_iff sampleInteractor sampleCtx []
  ⟨hbad.1.mpr (by decide), (hbad.2 (by decide)).2,
    fun hs => absurd (hgood.1.mp hs) (by decide)⟩

/-- C5: when the WIQL stage succeeds and the detail-fetch stage fails, the
response is the upstream-error response with status 500; it is the same
whatever the WIQL stage returned (and whatever the error was), so nothing of
the stage-1 ID list reaches the caller. -/
theorem getMemberWorkItems_detail_failure {α : Type}
    (interactor other : AzureInteractor α) (ctx : Context α) (log : List Call)
    (W W2 : WiqlQueryResult) (e e2 : GoError)
    (hp : ctx.Query "projectId" ≠ "") (ht : ctx.Query "teamId" ≠ "")
    (hm : ctx.Param "memberId" ≠ "") (hi : ctx.Query "iteration" ≠ "")
    (hW : interactor.replyWiql (ctx.Query "projectId") (ctx.Query "teamId")
      (ctx.Param "memberId") (ctx.Query "iteration") = Except.ok W)
    (hD : interactor.replyDescription (ctx.Query "projectId") (detailIDs W) =
      Except.error e)
    (hW2 : other.replyWiql (ctx.Query "projectId") (ctx.Query "teamId")
      (ctx.Param "memberId") (ctx.Query "iteration") = Except.ok W2)
    (hD2 : other.replyDescription (ctx.Query "projectId") (detailIDs W2) =
      Except.error e2) :
    (getMemberWorkItems interactor ctx log).1 = httputil.NewInternalAzureError ctx ∧
      (getMemberWorkItems interactor ctx log).1.written =
        ctx.written ++ [⟨500, Body.upstreamError⟩] ∧
      (getMemberWorkItems interactor ctx log).1.Status = some 500 ∧
      (getMemberWorkItems other ctx log).1 = (getMemberWorkItems interactor ctx log).1 := by
  have hpres := present_of_each ctx hp ht hm hi
  have hrun := getMemberWorkItems_wiql_ok interactor ctx log W hpres hW
  have hrun2 := getMemberWorkItems_wiql_ok other ctx log W2 hpres hW2
  rw [hD] at hrun
  rw [hD2] at hrun2
  refine ⟨by rw [hrun], ?_, ?_, by rw [hrun, hrun2]⟩
  · rw [hrun]
    rfl
  · rw [hrun]
    exact status_NewInternalAzureError ctx

theorem getMemberWorkItems_detail_failure_witness :
    (getMemberWorkItems detailDownInteractor sampleCtx []).1.written =
        sampleCtx.written ++ [⟨500, Body.upstreamError⟩] ∧
      (getMemberWorkItems otherDetailDownInteractor sampleCtx []).1 =
        (getMemberWorkItems detailDownInteractor sampleCtx []).1 :=
  have h := getMemberWorkItems_detail_failure detailDownInteractor
    otherDetailDownInteractor sampleCtx [] ⟨[⟨101⟩, ⟨205⟩]⟩ ⟨[⟨7⟩]⟩
    ⟨"502 Bad Gateway"⟩ ⟨"401 Unauthorized"⟩
    (by decide) (by decide) (by decide) (by decide) rfl rfl rfl rfl
  ⟨h.2.1, h.2.2.2⟩

/-- C6: with four non-empty parameters and both stages succeeding, exactly one
response is written: status 200 with the value returned by the detail-fetch
stage as its body, unchanged. -/
theorem getMemberWorkItems_success {α : Type} (interactor : AzureInteractor α)
    (ctx : Context α) (log : List Call) (W : WiqlQueryResult) (workItems : α)
    (hp : ctx.Query "projectId" ≠ "") (ht : ctx.Query "teamId" ≠ "")
    (hm : ctx.Param "memberId" ≠ "") (hi : ctx.Query "iteration" ≠ "")
    (hW : interactor.replyWiql (ctx.Query "projectId") (ctx.Query "teamId")
      (ctx.Param "memberId") (ctx.Query "iteration") = Except.ok W)
    (hD : interactor.replyDescription (ctx.Query "projectId") (detailIDs W) =
      Except.ok workItems) :
    (getMemberWorkItems interactor ctx log).1 = ctx.JSON StatusOK workItems ∧
      (getMemberWorkItems interactor ctx log).1.written =
        ctx.written ++ [⟨200, Body.value workItems⟩] ∧
      (getMemberWorkItems interactor ctx log).1.Status = some 200 := by
  have hrun := getMemberWorkItems_wiql_ok interactor ctx log W
    (present_of_each ctx hp ht hm hi) hW
  rw [hD] at hrun
  refine ⟨by rw [hrun], ?_, ?_⟩
  · rw [hrun]
    rfl
  · rw [hrun]
    exact status_JSON ctx StatusOK workItems

theorem getMemberWorkItems_success_witness :
    (getMemberWorkItems sampleInteractor sampleCtx []).1.written =
      sampleCtx.written ++ [⟨200, Body.value "two records"⟩] :=
  (getMemberWorkItems_success sampleInteractor sampleCtx [] ⟨[⟨101⟩, ⟨205⟩]⟩
    "two records" (by decide) (by decide) (by decide) (by decide) rfl rfl).2.1

/-- C10: with four non-empty parameters the WIQL stage is invoked exactly
once, first, with the query values of projectId and teamId, the path value of
memberId and the query value of iteration, each exactly as received; every
later upstream call is a detail-fetch for the same projectId. -/
theorem getMemberWorkItems_forwards_verbatim {α : Type} (interactor : AzureInteractor α)
    (ctx : Context α) (log : List Call)
    (hp : ctx.Query "projectId" ≠ "") (ht : ctx.Query "teamId" ≠ "")
    (hm : ctx.Param "memberId" ≠ "") (hi : ctx.Query "iteration" ≠ "") :
    wiqlCount (getMemberWorkItems interactor ctx log).2 = wiqlCount log + 1 ∧
      ∃ later : List Call,
        (getMemberWorkItems interactor ctx log).2 =
            log ++ Call.GetWorkItemsByWiql (ctx.Query "projectId") (ctx.Query "teamId")
              (ctx.Param "memberId") (ctx.Query "iteration") :: later ∧
          later.length ≤ 1 ∧
          ∀ c ∈ later, ∃ ids, c = Call.GetWorkItemsDescription (ctx.Query "projectId") ids := by
  have hpres := present_of_each ctx hp ht hm hi
  cases hW : interactor.replyWiql (ctx.Query "projectId") (ctx.Query "teamId")
      (ctx.Param "memberId") (ctx.Query "iteration") with
  | error e =>
    have hrun := getMemberWorkItems_wiql_error interactor ctx log e hpres hW
    refine ⟨?_, [], by rw [hrun], by simp, by simp⟩
    rw [hrun]
    simp [wiqlCount_append, wiqlCount]
  | ok W =>
    have hrun := getMemberWorkItems_wiql_ok interactor ctx log W hpres hW
    refine ⟨?_, [Call.GetWorkItemsDescription (ctx.Query "projectId") (detailIDs W)],
      by rw [hrun], by simp, ?_⟩
    · rw [hrun]
      simp [wiqlCount_append, wiqlCount]
    · intro c hc
      exact ⟨detailIDs W, by simpa using hc⟩

theorem getMemberWorkItems_forwards_verbatim_witness :
    wiqlCount (getMemberWorkItems sampleInteractor quotedCtx []).2 = wiqlCount [] + 1 ∧
      (getMemberWorkItems sampleInteractor quotedCtx []).2 =
        [Call.GetWorkItemsByWiql "proj" "team" "dev@example.com"
            "Sprint \" OR \"1\" = \"1",
          Call.GetWorkItemsDescription "proj" [101, 205]] :=
  ⟨(getMemberWorkItems_forwards_verbatim sampleInteractor quotedCtx []
      (by decide) (by decide) (by decide) (by decide)).1, by decide⟩

/-! ## The list endpoints -/

theorem getProjectsList_eq {P T M I α : Type} (client : AzureClient P T M I)
    (models : Models P T M I α) (ctx : Context α) (log : List Call) :
    getProjectsList client models ctx log =
      if False then
        (httputil.NewError ctx StatusBadRequest "", log)
      else
        ((match client.Projects.replyProjects ⟨"5.1"⟩ with
          | Except.error _ => httputil.NewInternalAzureError ctx
          | Except.ok v => ctx.JSON StatusOK (models.FromAzureProjectsList v)),
          log ++ [Call.Projects ⟨"5.1"⟩]) := by
  simp only [getProjectsList, ProjectsService.Projects, if_false]
  cases client.Projects.replyProjects ⟨"5.1"⟩ <;> rfl

theorem getProjectTeams_eq {P T M I α : Type} (client : AzureClient P T M I)
    (models : Models P T M I α) (ctx : Context α) (log : List Call) :
    getProjectTeams client models ctx log =
      if ctx.Query "projectId" = "" then
        (httputil.NewError ctx StatusBadRequest "projectId must be provided", log)
      else
        ((match client.Projects.replyProjectTeams (ctx.Query "projectId") ⟨"5.0"⟩ with
          | Except.error _ => httputil.NewInternalAzureError ctx
          | Except.ok v => ctx.JSON StatusOK (models.FromAzureTeamsList v)),
          log ++ [Call.ProjectTeams (ctx.Query "projectId") ⟨"5.0"⟩]) := by
  simp only [getProjectTeams, ProjectsService.ProjectTeams]
  split
  · rfl
  · cases client.Projects.replyProjectTeams (ctx.Query "projectId") ⟨"5.0"⟩ <;> rfl

theorem getTeamMembers_eq {P T M I α : Type} (client : AzureClient P T M I)
    (models : Models P T M I α) (ctx : Context α) (log : List Call) :
    getTeamMembers client models ctx log =
      if ctx.Query "projectId" = "" ∨ ctx.Query "teamId" = "" then
        (httputil.NewError ctx StatusBadRequest "projectId and teamId must be provided", log)
      else
        ((match client.Teams.replyTeamMembers (ctx.Query "projectId") (ctx.Query "teamId")
            ⟨"5.1"⟩ with
          | Except.error _ => httputil.NewInternalAzureError ctx
          | Except.ok v => ctx.JSON StatusOK (models.FromAzureMembersList v)),
          log ++ [Call.TeamMembers (ctx.Query "projectId") (ctx.Query "teamId") ⟨"5.1"⟩]) := by
  simp only [getTeamMembers, TeamsService.TeamMembers]
  split
  · rfl
  · cases client.Teams.replyTeamMembers (ctx.Query "projectId") (ctx.Query "teamId")
      ⟨"5.1"⟩ <;> rfl

theorem getTeamIterations_eq {P T M I α : Type} (client : AzureClient P T M I)
    (models : Models P T M I α) (ctx : Context α) (log : List Call) :
    getTeamIterations client models ctx log =
      if ctx.Query "projectId" = "" ∨ ctx.Query "teamId" = "" then
        (httputil.NewError ctx StatusBadRequest "projectId and teamId must be provided", log)
      else
        ((match client.Teams.replyTeamIterations (ctx.Query "projectId")
            (ctx.Query "teamId") ⟨"5.1"⟩ with
          | Except.error _ => httputil.NewInternalAzureError ctx
          | Except.ok v => ctx.JSON StatusOK (models.FromAzureIterations v)),
          log ++ [Call.TeamIterations (ctx.Query "projectId") (ctx.Query "teamId")
            ⟨"5.1"⟩]) := by
  simp only [getTeamIterations, TeamsService.TeamIterations]
  split
  · rfl
  · cases client.Teams.replyTeamIterations (ctx.Query "projectId") (ctx.Query "teamId")
      ⟨"5.1"⟩ <;> rfl

/-- The shape shared by the list handlers: a guard answering 400, then one
upstream call answering 500 or 200. -/
theorem guarded_call_spec {α R : Type} (ctx : Context α) (log : List Call)
    (G : Prop) [Decidable G] (msg : String) (reply : Except GoError R) (conv : R → α)
    (c : Call) (run : Context α × List Call)
    (hrun : run =
      if G then (httputil.NewError ctx StatusBadRequest msg, log)
      else
        ((match reply with
          | Except.error _ => httputil.NewInternalAzureError ctx
          | Except.ok v => ctx.JSON StatusOK (conv v)), log ++ [c])) :
    (run.1.Status = some 400 ↔ G) ∧
      (G → run.1 = httputil.NewError ctx StatusBadRequest msg ∧ run.2 = log) ∧
      (¬ G → run.2 = log ++ [c] ∧
        (∀ e, reply = Except.error e →
          run.1 = httputil.NewInternalAzureError ctx ∧ run.1.Status = some 500) ∧
        (∀ v, reply = Except.ok v →
          run.1 = ctx.JSON StatusOK (conv v) ∧ run.1.Status = some 200)) := by
  subst hrun
  by_cases h : G
  · rw [if_pos h]
    refine ⟨⟨fun _ => h, fun _ => status_NewError ctx StatusBadRequest msg⟩,
      fun _ => ⟨rfl, rfl⟩, fun hn => absurd h hn⟩
  · rw [if_neg h]
    refine ⟨⟨fun hs => ?_, fun hg => absurd hg h⟩, fun hg => absurd hg h,
      fun _ => ⟨rfl, ?_, ?_⟩⟩
    · exfalso
      cases reply with
      | error e =>
        simp only [status_NewInternalAzureError] at hs
        exact absurd hs (by decide)
      | ok v =>
        simp only [status_JSON, StatusOK] at hs
        exact absurd hs (by decide)
    · intro e he
      subst he
      exact ⟨rfl, status_NewInternalAzureError ctx⟩
    · intro v hv
      subst hv
      exact ⟨rfl, status_JSON ctx StatusOK (conv v)⟩

/-- Two runs of a guarded call on the same request whose upstream calls both
fail write the same response. -/
theorem guarded_call_error_blind {α R : Type} (ctx : Context α) (log : List Call)
    (G : Prop) [Decidable G] (msg : String) (r1 r2 : Except GoError R) (conv : R → α)
    (c : Call) (run1 run2 : Context α × List Call) (e1 e2 : GoError)
    (h1 : run1 =
      if G then (httputil.NewError ctx StatusBadRequest msg, log)
      else
        ((match r1 with
          | Except.error _ => httputil.NewInternalAzureError ctx
          | Except.ok v => ctx.JSON StatusOK (conv v)), log ++ [c]))
    (h2 : run2 =
      if G then (httputil.NewError ctx StatusBadRequest msg, log)
      else
        ((match r2 with
          | Except.error _ => httputil.NewInternalAzureError ctx
          | Except.ok v => ctx.JSON StatusOK (conv v)), log ++ [c]))
    (he1 : r1 = Except.error e1) (he2 : r2 = Except.error e2) :
    run1.1 = run2.1 := by
  subst h1 h2 he1 he2
  by_cases h : G
  · simp only [if_pos h]
  · simp only [if_neg h]

theorem getMemberWorkItems_failed {α : Type} (interactor : AzureInteractor α)
    (ctx : Context α) (log : List Call)
    (h : ¬ (ctx.Query "projectId" = "" ∨ ctx.Query "teamId" = "" ∨
      ctx.Param "memberId" = "" ∨ ctx.Query "iteration" = ""))
    (hfail : (∃ e, interactor.replyWiql (ctx.Query "projectId") (ctx.Query "teamId")
        (ctx.Param "memberId") (ctx.Query "iteration") = Except.error e) ∨
      (∃ W e, interactor.replyWiql (ctx.Query "projectId") (ctx.Query "teamId")
          (ctx.Param "memberId") (ctx.Query "iteration") = Except.ok W ∧
        interactor.replyDescription (ctx.Query "projectId") (detailIDs W) =
          Except.error e)) :
    (getMemberWorkItems interactor ctx log).1 = httputil.NewInternalAzureError ctx := by
  rcases hfail with ⟨e, hW⟩ | ⟨W, e, hW, hD⟩
  · rw [getMemberWorkItems_wiql_error interactor ctx log e h hW]
  · rw [getMemberWorkItems_wiql_ok interactor ctx log W h hW, hD]

/-- C9: the list endpoints. `getProjectTeams` answers 400 exactly when
projectId is empty; `getTeamMembers` and `getTeamIterations` answer 400
exactly when projectId or teamId is empty; a 400 is written without any
upstream call. Otherwise exactly one upstream call is made, with the
parameters as received, and the answer is 500 when it fails and 200 (with the
converted payload) when it succeeds. -/
theorem list_endpoints_validate_then_call {P T M I α : Type}
    (client : AzureClient P T M I) (models : Models P T M I α) (ctx : Context α)
    (log : List Call) :
    (((getProjectTeams client models ctx log).1.Status = some 400 ↔
          ctx.Query "projectId" = "") ∧
        (ctx.Query "projectId" = "" →
          (getProjectTeams client models ctx log).1 =
              httputil.NewError ctx StatusBadRequest "projectId must be provided" ∧
            (getProjectTeams client models ctx log).2 = log) ∧
        (¬ ctx.Query "projectId" = "" →
          (getProjectTeams client models ctx log).2 =
              log ++ [Call.ProjectTeams (ctx.Query "projectId") ⟨"5.0"⟩] ∧
            (∀ e, client.Projects.replyProjectTeams (ctx.Query "projectId") ⟨"5.0"⟩ =
                Except.error e →
              (getProjectTeams client models ctx log).1 =
                  httputil.NewInternalAzureError ctx ∧
                (getProjectTeams client models ctx log).1.Status = some 500) ∧
            (∀ v, client.Projects.replyProjectTeams (ctx.Query "projectId") ⟨"5.0"⟩ =
                Except.ok v →
              (getProjectTeams client models ctx log).1 =
                  ctx.JSON StatusOK (models.FromAzureTeamsList v) ∧
                (getProjectTeams client models ctx log).1.Status = some 200))) ∧
      (((getTeamMembers client models ctx log).1.Status = some 400 ↔
          (ctx.Query "projectId" = "" ∨ ctx.Query "teamId" = "")) ∧
        ((ctx.Query "projectId" = "" ∨ ctx.Query "teamId" = "") →
          (getTeamMembers client models ctx log).1 =
              httputil.NewError ctx StatusBadRequest
                "projectId and teamId must be provided" ∧
            (getTeamMembers client models ctx log).2 = log) ∧
        (¬ (ctx.Query "projectId" = "" ∨ ctx.Query "teamId" = "") →
          (getTeamMembers client models ctx log).2 =
              log ++ [Call.TeamMembers (ctx.Query "projectId") (ctx.Query "teamId")
                ⟨"5.1"⟩] ∧
            (∀ e, client.Teams.replyTeamMembers (ctx.Query "projectId")
                (ctx.Query "teamId") ⟨"5.1"⟩ = Except.error e →
              (getTeamMembers client models ctx log).1 =
                  httputil.NewInternalAzureError ctx ∧
                (getTeamMembers client models ctx log).1.Status = some 500) ∧
            (∀ v, client.Teams.replyTeamMembers (ctx.Query "projectId")
                (ctx.Query "teamId") ⟨"5.1"⟩ = Except.ok v →
              (getTeamMembers client models ctx log).1 =
                  ctx.JSON StatusOK (models.FromAzureMembersList v) ∧
                (getTeamMembers client models ctx log).1.Status = some 200))) ∧
      (((getTeamIterations client models ctx log).1.Status = some 400 ↔
          (ctx.Query "projectId" = "" ∨ ctx.Query "teamId" = "")) ∧
        ((ctx.Query "projectId" = "" ∨ ctx.Query "teamId" = "") →
          (getTeamIterations client models ctx log).1 =
              httputil.NewError ctx StatusBadRequest
                "projectId and teamId must be provided" ∧
            (getTeamIterations client models ctx log).2 = log) ∧
        (¬ (ctx.Query "projectId" = "" ∨ ctx.Query "teamId" = "") →
          (getTeamIterations client models ctx log).2 =
              log ++ [Call.TeamIterations (ctx.Query "projectId") (ctx.Query "teamId")
                ⟨"5.1"⟩] ∧
            (∀ e, client.Teams.replyTeamIterations (ctx.Query "projectId")
                (ctx.Query "teamId") ⟨"5.1"⟩ = Except.error e →
              (getTeamIterations client models ctx log).1 =
                  httputil.NewInternalAzureError ctx ∧
                (getTeamIterations client models ctx log).1.Status = some 500) ∧
            (∀ v, client.Teams.replyTeamIterations (ctx.Query "projectId")
                (ctx.Query "teamId") ⟨"5.1"⟩ = Except.ok v →
              (getTeamIterations client models ctx log).1 =
                  ctx.JSON StatusOK (models.FromAzureIterations v) ∧
                (getTeamIterations client models ctx log).1.Status = some 200))) :=
  ⟨guarded_call_spec ctx log _ _ _ _ _ _ (getProjectTeams_eq client models ctx log),
    guarded_call_spec ctx log _ _ _ _ _ _ (getTeamMembers_eq client models ctx log),
    guarded_call_spec ctx log _ _ _ _ _ _ (getTeamIterations_eq client models ctx log)⟩

theorem list_endpoints_validate_then_call_witness :
    (getProjectTeams sampleClient sampleModels bareCtx []).1.Status = some 400 ∧
      (getTeamMembers sampleClient sampleModels noTeamCtx []).2 = [] ∧
      (getTeamIterations sampleClient sampleModels sampleCtx []).2 =
        [] ++ [Call.TeamIterations (sampleCtx.Query "projectId")
          (sampleCtx.Query "teamId") ⟨"5.1"⟩] ∧
      (getTeamMembers (downClient ⟨"timeout"⟩) sampleModels sampleCtx []).1.Status =
        some 500 ∧
      (getProjectTeams sampleClient sampleModels noTeamCtx []).1 =
        noTeamCtx.JSON StatusOK (sampleModels.FromAzureTeamsList "Core") :=
  have hbare := list_endpoints_validate_then_call sampleClient sampleModels bareCtx []
  have hnoTeam := list_endpoints_validate_then_call sampleClient sampleModels noTeamCtx []
  have hfull := list_endpoints_validate_then_call sampleClient sampleModels sampleCtx []
  have hdown := list_endpoints_validate_then_call (downClient ⟨"timeout"⟩) sampleModels
    sampleCtx []
  ⟨hbare.1.1.mpr (by decide),
    (hnoTeam.2.1.2.1 (by decide)).2,
    (hfull.2.2.2.2 (by decide)).1,
    ((hdown.2.1.2.2 (by decide)).2.1 ⟨"timeout"⟩ rfl).2,
    ((hnoTeam.1.2.2 (by decide)).2.2 "Core" rfl).1⟩

/-- C7: on every Azure endpoint the response written after an upstream
failure does not depend on the error value: two runs on the same request
whose upstream call fails (for the work-item workflow: at either stage)
write identical responses. -/
theorem upstream_error_not_leaked {P T M I α : Type}
    (client1 client2 : AzureClient P T M I) (models : Models P T M I α)
    (interactor1 interactor2 : AzureInteractor α) (ctx : Context α) (log : List Call) :
    (∀ e1 e2, client1.Projects.replyProjects ⟨"5.1"⟩ = Except.error e1 →
        client2.Projects.replyProjects ⟨"5.1"⟩ = Except.error e2 →
        (getProjectsList client1 models ctx log).1 =
          (getProjectsList client2 models ctx log).1) ∧
      (∀ e1 e2,
        client1.Projects.replyProjectTeams (ctx.Query "projectId") ⟨"5.0"⟩ =
          Except.error e1 →
        client2.Projects.replyProjectTeams (ctx.Query "projectId") ⟨"5.0"⟩ =
          Except.error e2 →
        (getProjectTeams client1 models ctx log).1 =
          (getProjectTeams client2 models ctx log).1) ∧
      (∀ e1 e2,
        client1.Teams.replyTeamMembers (ctx.Query "projectId") (ctx.Query "teamId")
          ⟨"5.1"⟩ = Except.error e1 →
        client2.Teams.replyTeamMembers (ctx.Query "projectId") (ctx.Query "teamId")
          ⟨"5.1"⟩ = Except.error e2 →
        (getTeamMembers client1 models ctx log).1 =
          (getTeamMembers client2 models ctx log).1) ∧
      (∀ e1 e2,
        client1.Teams.replyTeamIterations (ctx.Query "projectId") (ctx.Query "teamId")
          ⟨"5.1"⟩ = Except.error e1 →
        client2.Teams.replyTeamIterations (ctx.Query "projectId") (ctx.Query "teamId")
          ⟨"5.1"⟩ = Except.error e2 →
        (getTeamIterations client1 models ctx log).1 =
          (getTeamIterations client2 models ctx log).1) ∧
      (((∃ e, interactor1.replyWiql (ctx.Query "projectId") (ctx.Query "teamId")
            (ctx.Param "memberId") (ctx.Query "iteration") = Except.error e) ∨
          (∃ W e, interactor1.replyWiql (ctx.Query "projectId") (ctx.Query "teamId")
              (ctx.Param "memberId") (ctx.Query "iteration") = Except.ok W ∧
            interactor1.replyDescription (ctx.Query "projectId") (detailIDs W) =
              Except.error e)) →
        ((∃ e, interactor2.replyWiql (ctx.Query "projectId") (ctx.Query "teamId")
            (ctx.Param "memberId") (ctx.Query "iteration") = Except.error e) ∨
          (∃ W e, interactor2.replyWiql (ctx.Query "projectId") (ctx.Query "teamId")
              (ctx.Param "memberId") (ctx.Query "iteration") = Except.ok W ∧
            interactor2.replyDescription (ctx.Query "projectId") (detailIDs W) =
              Except.error e)) →
        (getMemberWorkItems interactor1 ctx log).1 =
          (getMemberWorkItems interactor2 ctx log).1) := by
  refine ⟨?_, ?_, ?_, ?_, ?_⟩
  · intro e1 e2 h1 h2
    exact guarded_call_error_blind ctx log _ _ _ _ _ _ _ _ e1 e2
      (getProjectsList_eq client1 models ctx log)
      (getProjectsList_eq client2 models ctx log) h1 h2
  · intro e1 e2 h1 h2
    exact guarded_call_error_blind ctx log _ _ _ _ _ _ _ _ e1 e2
      (getProjectTeams_eq client1 models ctx log)
      (getProjectTeams_eq client2 models ctx log) h1 h2
  · intro e1 e2 h1 h2
    exact guarded_call_error_blind ctx log _ _ _ _ _ _ _ _ e1 e2
      (getTeamMembers_eq client1 models ctx log)
      (getTeamMembers_eq client2 models ctx log) h1 h2
  · intro e1 e2 h1 h2
    exact guarded_call_error_blind ctx log _ _ _ _ _ _ _ _ e1 e2
      (getTeamIterations_eq client1 models ctx log)
      (getTeamIterations_eq client2 models ctx log) h1 h2
  · intro h1 h2
    by_cases h : ctx.Query "projectId" = "" ∨ ctx.Query "teamId" = "" ∨
        ctx.Param "memberId" = "" ∨ ctx.Query "iteration" = ""
    · rw [getMemberWorkItems_missing interactor1 ctx log h,
        getMemberWorkItems_missing interactor2 ctx log h]
    · rw [getMemberWorkItems_failed interactor1 ctx log h h1,
        getMemberWorkItems_failed interactor2 ctx log h h2]

theorem upstream_error_not_leaked_witness :
    (getProjectsList (downClient ⟨"401 bad token"⟩) sampleModels sampleCtx []).1 =
        (getProjectsList (downClient ⟨"dial tcp: timeout"⟩) sampleModels sampleCtx []).1 ∧
      (getProjectTeams (downClient ⟨"401 bad token"⟩) sampleModels sampleCtx []).1 =
        (getProjectTeams (downClient ⟨"dial tcp: timeout"⟩) sampleModels sampleCtx []).1 ∧
      (getTeamMembers (downClient ⟨"401 bad token"⟩) sampleModels sampleCtx []).1 =
        (getTeamMembers (downClient ⟨"dial tcp: timeout"⟩) sampleModels sampleCtx []).1 ∧
      (getTeamIterations (downClient ⟨"401 bad token"⟩) sampleModels sampleCtx []).1 =
        (getTeamIterations (downClient ⟨"dial tcp: timeout"⟩) sampleModels
          sampleCtx []).1 ∧
      (getMemberWorkItems wiqlDownInteractor sampleCtx []).1 =
        (getMemberWorkItems detailDownInteractor sampleCtx []).1 :=
  have h := upstream_error_not_leaked (downClient ⟨"401 bad token"⟩)
    (downClient ⟨"dial tcp: timeout"⟩) sampleModels wiqlDownInteractor
    detailDownInteractor sampleCtx []
  ⟨h.1 ⟨"401 bad token"⟩ ⟨"dial tcp: timeout"⟩ rfl rfl,
    h.2.1 ⟨"401 bad token"⟩ ⟨"dial tcp: timeout"⟩ rfl rfl,
    h.2.2.1 ⟨"401 bad token"⟩ ⟨"dial tcp: timeout"⟩ rfl rfl,
    h.2.2.2.1 ⟨"401 bad token"⟩ ⟨"dial tcp: timeout"⟩ rfl rfl,
    h.2.2.2.2 (Or.inl ⟨⟨"503 Service Unavailable"⟩, rfl⟩)
      (Or.inr ⟨⟨[⟨101⟩, ⟨205⟩]⟩, ⟨"502 Bad Gateway"⟩, rfl, rfl⟩)⟩

/-! ## Routing -/

/-- C8 fails on the code: no route is registered at
`members/:memberId/workItems`, for any method or handler. -/
theorem RegisterRoutes_no_bare_workItems_route :
    (⟨"GET", "members/:memberId/workItems", Handler.getMemberWorkItems⟩ : Route) ∉
        (RegisterRoutes ⟨[]⟩).routes ∧
      ∀ r ∈ (RegisterRoutes ⟨[]⟩).routes, r.relativePath ≠ "members/:memberId/workItems" := by
  decide

/-- C8 (amended): `RegisterRoutes` appends five GET routes to the group; the
member-work-items handler is registered for GET at
`members/:memberId/workItems/list`, and at no other path. -/
theorem RegisterRoutes_member_workItems_route (router : RouterGroup) :
    (RegisterRoutes router).routes =
        router.routes ++
          [⟨"GET", "projects/list", Handler.getProjectsList⟩,
            ⟨"GET", "teams/list", Handler.getProjectTeams⟩,
            ⟨"GET", "teams/members/list", Handler.getTeamMembers⟩,
            ⟨"GET", "teams/iterations/list", Handler.getTeamIterations⟩,
            ⟨"GET", "members/:memberId/workItems/list", Handler.getMemberWorkItems⟩] ∧
      (⟨"GET", "members/:memberId/workItems/list", Handler.getMemberWorkItems⟩ : Route) ∈
        (RegisterRoutes router).routes ∧
      ∀ r ∈ (RegisterRoutes ⟨[]⟩).routes, r.handler = Handler.getMemberWorkItems →
        r.httpMethod = "GET" ∧ r.relativePath = "members/:memberId/workItems/list" := by
  have hroutes : (RegisterRoutes router).routes =
      router.routes ++
        [⟨"GET", "projects/list", Handler.getProjectsList⟩,
          ⟨"GET", "teams/list", Handler.getProjectTeams⟩,
          ⟨"GET", "teams/members/list", Handler.getTeamMembers⟩,
          ⟨"GET", "teams/iterations/list", Handler.getTeamIterations⟩,
          ⟨"GET", "members/:memberId/workItems/list", Handler.getMemberWorkItems⟩] := by
    simp [RegisterRoutes, RouterGroup.GET]
  refine ⟨hroutes, ?_, by decide⟩
  rw [hroutes]
  simp

end Databriz
